import Mathlib

/-!
Verification of the video-merge API's filter-graph planning and merge
orchestration, shallowly embedded from the repository's JavaScript source.

The repository contains several revisions of the `POST /api/merge-videos`
handler.  Each revision is embedded in its own namespace:

* `SepConcat`  — the revision that always concatenates video separately and
  handles audio per-case (`part_000`, first revision; this is the decision
  table of the specification, §4.2).
* `JointConcat` — the revision in `server.js` (first revision) that fuses
  video and audio into a single `concat` stage when possible.
* `Silence`    — the silence-synthesis revision (`server.js`, second
  revision): a missing audio track is replaced by trimmed generated silence.
* `CopyVariant` — the stream-copy revision (`part_001`): concat demuxer with
  `-c copy`, no probing and no filter graph.

A filter stage is modelled structurally: the ordered pad labels it consumes,
the textual filter operation exactly as it appears in the source, and the
ordered pad labels it produces.  `render` reproduces the exact filter
strings the JavaScript builds, and the `*_renders_source` theorems check the
embedding against those strings character for character.
-/

/-- One filter stage: consumed pad labels (without brackets), the filter
body text exactly as written in the source, and produced pad labels. -/
structure FilterStage where
  consumes : List String
  op : String
  produces : List String
deriving DecidableEq, Repr

/-- A filter-graph plan: the ordered stages handed to `complexFilter`, the
video label that is always mapped (`-map [v]` in every revision), and the
audio label mapped when present. -/
structure FilterGraphPlan where
  stages : List FilterStage
  finalVideoLabel : String
  finalAudioLabel : Option String
deriving DecidableEq, Repr

/-- Raw input pads available to the first stage of any plan: the video and
audio elementary streams of the two inputs (`[0:v]`, `[0:a]`, `[1:v]`,
`[1:a]` in the source's bracket notation). -/
def rawInputPads : List String := ["0:v", "0:a", "1:v", "1:a"]

/-- A pad may be consumed if it is a raw input pad or has been produced by
an earlier stage. -/
def padAvailable (produced : List String) (p : String) : Bool :=
  rawInputPads.contains p || produced.contains p

/-- Every stage only consumes pads that are raw inputs or outputs of an
earlier stage of the same plan. -/
def stagesWellFormed : List String → List FilterStage → Bool
  | _, [] => true
  | produced, s :: rest =>
      s.consumes.all (padAvailable produced) &&
      stagesWellFormed (produced ++ s.produces) rest

/-- All pad labels produced by a list of stages, in order. -/
def producedLabels (stages : List FilterStage) : List String :=
  stages.foldr (fun s acc => s.produces ++ acc) []

/-- A plan is well formed when every consumed pad is a raw input pad or was
produced by an earlier stage, and every label referenced by an output
`-map` directive (the video label, and the audio label when present) is
produced by some stage. -/
def planWellFormed (p : FilterGraphPlan) : Bool :=
  stagesWellFormed [] p.stages &&
  (producedLabels p.stages).contains p.finalVideoLabel &&
  (match p.finalAudioLabel with
   | some l => (producedLabels p.stages).contains l
   | none => true)

/-- Number of times a pad label is consumed across the stages of a plan. -/
def consumedCount (p : String) (stages : List FilterStage) : Nat :=
  stages.foldr (fun s acc => s.consumes.count p + acc) 0

/-- Render the bracketed pad list exactly as the source writes it. -/
def renderPads (pads : List String) : String :=
  pads.foldr (fun p acc => "[" ++ p ++ "]" ++ acc) ""

/-- Render a stage back to the exact filter string of the source. -/
def render (s : FilterStage) : String :=
  renderPads s.consumes ++ s.op ++ renderPads s.produces

/-- Render a whole plan to the list of strings passed to `complexFilter`. -/
def renderAll (p : FilterGraphPlan) : List String :=
  p.stages.map render

/-- Video normalization body used by the scaled revisions (`server.js`
first revision and both `part_000` revisions). -/
def videoNormScaledOp : String :=
  "fps=30,format=yuv420p,scale=w=1920:h=1080:force_original_aspect_ratio=decrease,setpts=PTS-STARTPTS"

/-- Video normalization body of the silence-synthesis revision (no scale). -/
def videoNormPlainOp : String :=
  "fps=30,format=yuv420p,setpts=PTS-STARTPTS"

/-- Audio normalization body shared by all filter-graph revisions. -/
def aresampleOp : String :=
  "aresample=48000,asetpts=PTS-STARTPTS"

namespace SepConcat

/-- The two video normalization stages (`videoFilters` in `part_000`). -/
def videoFilters : List FilterStage :=
  [⟨["0:v"], videoNormScaledOp, ["v0"]⟩,
   ⟨["1:v"], videoNormScaledOp, ["v1"]⟩]

/-- The unconditional video-only concat stage
(`[v0][v1]concat=n=2:v=1:a=0[v]`). -/
def videoConcat : FilterStage := ⟨["v0", "v1"], "concat=n=2:v=1:a=0", ["v"]⟩

/-- Intro audio normalization (`[0:a]aresample=...[a_intro]`). -/
def aIntroStage : FilterStage := ⟨["0:a"], aresampleOp, ["a_intro"]⟩

/-- Main audio normalization (`[1:a]aresample=...[a_main]`). -/
def aMainStage : FilterStage := ⟨["1:a"], aresampleOp, ["a_main"]⟩

/-- Audio-only concat of the two normalized tracks
(`[a_intro][a_main]concat=n=2:v=0:a=1[a]`). -/
def audioConcat : FilterStage :=
  ⟨["a_intro", "a_main"], "concat=n=2:v=0:a=1", ["a"]⟩

/-- `audioFilters` as pushed by the four branches in `part_000`. -/
def audioFilters (introHasA mainHasA : Bool) : List FilterStage :=
  if introHasA && mainHasA then [aIntroStage, aMainStage, audioConcat]
  else if introHasA && !mainHasA then [aIntroStage]
  else if !introHasA && mainHasA then [aMainStage]
  else []

/-- `audioOutputLabel` as assigned by the four branches in `part_000`
(`null` in the no-audio branch). -/
def audioOutputLabel (introHasA mainHasA : Bool) : Option String :=
  if introHasA && mainHasA then some "a"
  else if introHasA && !mainHasA then some "a_intro"
  else if !introHasA && mainHasA then some "a_main"
  else none

/-- The planner of the separate-concat revision: `allFilters`
is `videoFilters ++ [videoConcat] ++ audioFilters`, `-map [v]` is always
issued and the audio label is mapped when non-null. -/
def plan (introHasA mainHasA : Bool) : FilterGraphPlan :=
  { stages := videoFilters ++ [videoConcat] ++ audioFilters introHasA mainHasA,
    finalVideoLabel := "v",
    finalAudioLabel := audioOutputLabel introHasA mainHasA }

end SepConcat

namespace JointConcat

/-- The two video normalization stages of `server.js` (first revision). -/
def videoFilters : List FilterStage :=
  [⟨["0:v"], videoNormScaledOp, ["v0"]⟩,
   ⟨["1:v"], videoNormScaledOp, ["v1"]⟩]

/-- `audioFilters` as pushed by the four branches of `server.js`. -/
def audioFilters (introHasA mainHasA : Bool) : List FilterStage :=
  if introHasA && mainHasA then
    [⟨["0:a"], aresampleOp, ["a0"]⟩, ⟨["1:a"], aresampleOp, ["a1"]⟩]
  else if introHasA && !mainHasA then
    [⟨["0:a"], aresampleOp, ["a0"]⟩]
  else if !introHasA && mainHasA then
    [⟨["1:a"], aresampleOp, ["a1"]⟩]
  else []

/-- `concatFilter` as assigned by the four branches of `server.js`: a fused
video+audio concat when the intro (or both inputs) carry audio, a
video-only concat otherwise.  Note the intro-only branch feeds `a0` twice
(`[v0][a0][v1][a0]`), extending the intro audio through the concat. -/
def concatFilter (introHasA mainHasA : Bool) : FilterStage :=
  if introHasA && mainHasA then
    ⟨["v0", "a0", "v1", "a1"], "concat=n=2:v=1:a=1", ["v", "a"]⟩
  else if introHasA && !mainHasA then
    ⟨["v0", "a0", "v1", "a0"], "concat=n=2:v=1:a=1", ["v", "a"]⟩
  else
    ⟨["v0", "v1"], "concat=n=2:v=1:a=0", ["v"]⟩

/-- `hasAudioOutput` is set in the first three branches. -/
def hasAudioOutput (introHasA mainHasA : Bool) : Bool :=
  introHasA || mainHasA

/-- The planner of the joint-concat revision: `allFilters`
is `videoFilters ++ audioFilters ++ [concatFilter]`; the output options
issue `-map [v]` always and `-map [a]` exactly when `hasAudioOutput`. -/
def plan (introHasA mainHasA : Bool) : FilterGraphPlan :=
  { stages := videoFilters ++ audioFilters introHasA mainHasA
      ++ [concatFilter introHasA mainHasA],
    finalVideoLabel := "v",
    finalAudioLabel :=
      if hasAudioOutput introHasA mainHasA then some "a" else none }

end JointConcat

namespace Silence

/-- `atrim` start bound of the generated silence (`atrim=0:1`). -/
def silenceTrimStart : Nat := 0

/-- `atrim` end bound of the generated silence, in seconds. -/
def silenceTrimEnd : Nat := 1

/-- Filter body synthesizing silence for a missing audio track
(`anullsrc=cl=stereo:r=48000,atrim=0:1`).  It consumes no input pad and its
trim bounds are fixed constants, not derived from any input duration. -/
def silenceOp : String :=
  "anullsrc=cl=stereo:r=48000,atrim=" ++ Nat.repr silenceTrimStart
    ++ ":" ++ Nat.repr silenceTrimEnd

/-- Intro audio normalization of the silence revision. -/
def resampleA0 : FilterStage := ⟨["0:a"], aresampleOp, ["a0"]⟩

/-- Main audio normalization of the silence revision. -/
def resampleA1 : FilterStage := ⟨["1:a"], aresampleOp, ["a1"]⟩

/-- Generated-silence substitute for a missing intro audio track. -/
def silenceA0 : FilterStage := ⟨[], silenceOp, ["a0"]⟩

/-- Generated-silence substitute for a missing main audio track. -/
def silenceA1 : FilterStage := ⟨[], silenceOp, ["a1"]⟩

/-- The two video normalization stages of the silence revision (no scale). -/
def videoFilters : List FilterStage :=
  [⟨["0:v"], videoNormPlainOp, ["v0"]⟩,
   ⟨["1:v"], videoNormPlainOp, ["v1"]⟩]

/-- `audioFilters` of the silence revision: one stage per input, either a
resample of the real track or trimmed generated silence. -/
def audioFilters (introHasA mainHasA : Bool) : List FilterStage :=
  [(if introHasA then resampleA0 else silenceA0),
   (if mainHasA then resampleA1 else silenceA1)]

/-- The fused four-pad concat of the silence revision
(`[v0][a0][v1][a1]concat=n=2:v=1:a=1[v][a]`). -/
def concatFilter : FilterStage :=
  ⟨["v0", "a0", "v1", "a1"], "concat=n=2:v=1:a=1", ["v", "a"]⟩

/-- The planner of the silence revision: both `[v]` and `[a]` are always
mapped. -/
def plan (introHasA mainHasA : Bool) : FilterGraphPlan :=
  { stages := videoFilters ++ audioFilters introHasA mainHasA ++ [concatFilter],
    finalVideoLabel := "v",
    finalAudioLabel := some "a" }

end Silence

/-- Sanity: the embedding of the separate-concat planner renders back to
the exact filter strings built by `part_000` (intro-and-main-audio case). -/
theorem sep_plan_renders_source : renderAll (SepConcat.plan true true) =
    ["[0:v]fps=30,format=yuv420p,scale=w=1920:h=1080:force_original_aspect_ratio=decrease,setpts=PTS-STARTPTS[v0]",
     "[1:v]fps=30,format=yuv420p,scale=w=1920:h=1080:force_original_aspect_ratio=decrease,setpts=PTS-STARTPTS[v1]",
     "[v0][v1]concat=n=2:v=1:a=0[v]",
     "[0:a]aresample=48000,asetpts=PTS-STARTPTS[a_intro]",
     "[1:a]aresample=48000,asetpts=PTS-STARTPTS[a_main]",
     "[a_intro][a_main]concat=n=2:v=0:a=1[a]"] := by
  decide

/-- Sanity: the joint-concat planner renders back to the exact filter
strings built by `server.js` in the intro-only-audio case, including the
repeated `[a0]` pad. -/
theorem joint_plan_renders_source : renderAll (JointConcat.plan true false) =
    ["[0:v]fps=30,format=yuv420p,scale=w=1920:h=1080:force_original_aspect_ratio=decrease,setpts=PTS-STARTPTS[v0]",
     "[1:v]fps=30,format=yuv420p,scale=w=1920:h=1080:force_original_aspect_ratio=decrease,setpts=PTS-STARTPTS[v1]",
     "[0:a]aresample=48000,asetpts=PTS-STARTPTS[a0]",
     "[v0][a0][v1][a0]concat=n=2:v=1:a=1[v][a]"] := by
  decide

/-- Sanity: the silence-synthesis planner renders back to the exact filter
strings built by the second revision of `server.js` when neither input has
audio. -/
theorem silence_plan_renders_source : renderAll (Silence.plan false false) =
    ["[0:v]fps=30,format=yuv420p,setpts=PTS-STARTPTS[v0]",
     "[1:v]fps=30,format=yuv420p,setpts=PTS-STARTPTS[v1]",
     "anullsrc=cl=stereo:r=48000,atrim=0:1[a0]",
     "anullsrc=cl=stereo:r=48000,atrim=0:1[a1]",
     "[v0][a0][v1][a1]concat=n=2:v=1:a=1[v][a]"] := by
  decide

/-- C1: For every pair of booleans (introHasAudio, mainHasAudio), the
planning step produces a plan whose final video output label is always set
(it is the concat output `v` in both planner revisions), and whose final
audio output label is set if and only if at least one of the two inputs has
audio. -/
theorem plan_final_labels_set_iff_audio : ∀ introHasA mainHasA : Bool,
    (SepConcat.plan introHasA mainHasA).finalVideoLabel = "v" ∧
    (SepConcat.plan introHasA mainHasA).finalAudioLabel.isSome
      = (introHasA || mainHasA) ∧
    (JointConcat.plan introHasA mainHasA).finalVideoLabel = "v" ∧
    (JointConcat.plan introHasA mainHasA).finalAudioLabel.isSome
      = (introHasA || mainHasA) := by
  decide

/-- C2 (code bug): the separate-concat planner is well formed in all four
cases, but the joint-concat revision of `server.js`, in its
main-audio-only case, issues `-map [a]` while its stages produce only
`v0`, `v1`, `a1` and `v` — the mapped audio label `a` is produced by no
stage, so the plan violates the no-dangling-reference invariant. -/
theorem joint_plan_maps_unproduced_audio_label :
    (∀ introHasA mainHasA : Bool,
      planWellFormed (SepConcat.plan introHasA mainHasA) = true) ∧
    (JointConcat.plan false true).finalAudioLabel = some "a" ∧
    producedLabels (JointConcat.plan false true).stages
      = ["v0", "v1", "a1", "v"] ∧
    planWellFormed (JointConcat.plan false true) = false := by
  decide

/-- C10: in the silence-synthesis revision, whenever an input lacks an
audio track its substituted audio stage is generated silence trimmed to
the fixed bounds `atrim=0:1` — a duration of at most one second, a
constant of the planner (which takes only the two presence booleans, never
a duration) — and the fused four-pad concat consumes that fixed-length pad
for the segment. -/
theorem silence_variant_fixed_one_second_substitute :
    ∀ introHasA mainHasA : Bool,
    (introHasA = false →
      (Silence.audioFilters introHasA mainHasA).head? = some Silence.silenceA0) ∧
    (mainHasA = false →
      (Silence.audioFilters introHasA mainHasA).getLast? = some Silence.silenceA1) ∧
    Silence.silenceA0.op = "anullsrc=cl=stereo:r=48000,atrim=0:1" ∧
    Silence.silenceA0.consumes = [] ∧
    Silence.silenceTrimEnd - Silence.silenceTrimStart ≤ 1 ∧
    Silence.concatFilter.consumes = ["v0", "a0", "v1", "a1"] ∧
    Silence.concatFilter ∈ (Silence.plan introHasA mainHasA).stages := by
  decide

/-- Witness for the silence-synthesis theorem at the concrete input where
neither clip carries audio: both substituted stages are the trimmed
generated-silence stages. -/
theorem silence_variant_fixed_one_second_substitute_witness :
    (Silence.audioFilters false false).head? = some Silence.silenceA0 ∧
    (Silence.audioFilters false false).getLast? = some Silence.silenceA1 :=
  ⟨(silence_variant_fixed_one_second_substitute false false).1 rfl,
   (silence_variant_fixed_one_second_substitute false false).2.1 rfl⟩

/-- Steps of the merge pipeline that touch external collaborators, in the
order the orchestrator can reach them. -/
inductive Step where
  | probe
  | planStep
  | writeFileList
  | transcode
  | deliver
deriving DecidableEq, Repr

/-- One stream descriptor of a probe result; only `codec_type` is read. -/
structure StreamInfo where
  codec_type : String
deriving DecidableEq, Repr

/-- A probe result: the list of stream descriptors. -/
structure ProbeInfo where
  streams : List StreamInfo
deriving DecidableEq, Repr

/-- Audio-presence check on a probe result, mirroring
`(info?.streams || []).some(s => s.codec_type === 'audio')`. -/
def hasAudioStream (info : ProbeInfo) : Bool :=
  info.streams.any (fun s => s.codec_type == "audio")

/-- Response body: the structured JSON error object with its message, a
file body, or a plain-text body (used only by the stream-copy revision). -/
inductive Body where
  | json (error : String)
  | file (p : String)
  | text (s : String)
deriving DecidableEq, Repr

/-- An HTTP response: status code and body. -/
structure HttpResult where
  status : Nat
  body : Body
deriving DecidableEq, Repr

/-- The 400 message of the missing-files check. -/
def missingFilesMsg : String := "Missing files. Send form fields \"intro\" and \"main\"."

/-- The temporary directory name joined under the platform temp root. -/
def TMP : String := "video-merge-api"

/-- The output path `path.join(TMP, merged_<Date.now()>.mp4)`, a function
of the wall-clock millisecond value alone. -/
def outputPathOf (now : Nat) : String :=
  TMP ++ "/merged_" ++ Nat.repr now ++ ".mp4"

/-- Environment of one merge request: whether each upload field arrived,
the two uploaded temp paths, the `Date.now()` value read when building the
output path, and the results the external collaborators would return. -/
structure MergeEnv where
  hasIntro : Bool
  hasMain : Bool
  introPath : String
  mainPath : String
  now : Nat
  probeIntro : Except String ProbeInfo
  probeMain : Except String ProbeInfo
  transcodeResult : Except String Unit

/-- Observable outcome of one request: the response, the pipeline steps
that executed, and the temp files removed by the cleanup code. -/
structure HandlerTrace where
  response : HttpResult
  steps : List Step
  unlinked : List String
deriving DecidableEq, Repr

/-- The `POST /api/merge-videos` handler of `server.js` (first revision):
reject with 400 JSON before any probe when an upload field is missing;
otherwise probe both inputs (a failed probe rejects the joined promise and
the catch block answers 500 JSON), plan from the two audio-presence
booleans, transcode (failure is caught as 500 JSON), then `sendFile`; the
cleanup `unlinkSync` calls live only inside the `sendFile` callback. -/
def handleMerge (env : MergeEnv) : HandlerTrace :=
  if !env.hasIntro || !env.hasMain then
    ⟨⟨400, Body.json missingFilesMsg⟩, [], []⟩
  else
    match env.probeIntro, env.probeMain with
    | Except.error e, _ => ⟨⟨500, Body.json e⟩, [Step.probe], []⟩
    | Except.ok _, Except.error e => ⟨⟨500, Body.json e⟩, [Step.probe], []⟩
    | Except.ok introInfo, Except.ok mainInfo =>
      let introHasA := hasAudioStream introInfo
      let mainHasA := hasAudioStream mainInfo
      let _plan := JointConcat.plan introHasA mainHasA
      match env.transcodeResult with
      | Except.error e =>
          ⟨⟨500, Body.json e⟩, [Step.probe, Step.planStep, Step.transcode], []⟩
      | Except.ok _ =>
          ⟨⟨200, Body.file (outputPathOf env.now)⟩,
           [Step.probe, Step.planStep, Step.transcode, Step.deliver],
           [env.introPath, env.mainPath, outputPathOf env.now]⟩

/-- Concrete environment where both uploads arrive and the intro probe
fails: a Failed terminal outcome reached at the probing stage. -/
def envProbeFail : MergeEnv :=
  ⟨true, true, "up_intro", "up_main", 7,
   Except.error "unreadable container", Except.ok ⟨[⟨"video"⟩]⟩,
   Except.ok ()⟩

/-- C7 counterexample: on a probe-failure terminal outcome the request
fails with 500, yet no temporary file is removed — the uploaded intro and
main files are not unlinked, contradicting the claim that cleanup runs on
every failure path. -/
theorem cleanup_skipped_on_probe_failure :
    (handleMerge envProbeFail).response.status = 500 ∧
    (handleMerge envProbeFail).unlinked = [] ∧
    "up_intro" ∉ (handleMerge envProbeFail).unlinked := by
  refine ⟨rfl, rfl, ?_⟩
  simp [handleMerge, envProbeFail]

/-- C7 amended: cleanup is tied to the delivery path alone.  The two
source files and the output file are each unlinked exactly once when the
pipeline reaches `sendFile` (whose callback runs the cleanup even if
delivery itself fails), and nothing is unlinked on the earlier failure
paths (missing input, probe failure, transcode failure). -/
theorem cleanup_runs_only_on_delivery_path (env : MergeEnv) :
    (handleMerge env).unlinked =
      (if Step.deliver ∈ (handleMerge env).steps
       then [env.introPath, env.mainPath, outputPathOf env.now]
       else []) := by
  obtain ⟨hi, hm, ip, mp, n, pi, pm, tr⟩ := env
  cases hi <;> cases hm <;> cases pi <;> cases pm <;> cases tr <;>
    simp [handleMerge]

/-- One in-flight merge request: its identity and the `Date.now()`
millisecond value observed while it builds its output path. -/
structure InflightRequest where
  id : Nat
  now : Nat
deriving DecidableEq, Repr

/-- The output filename generated for a request: `merged_<Date.now()>.mp4`
under the temp directory — a function of the wall-clock value alone. -/
def requestOutputName (r : InflightRequest) : String :=
  outputPathOf r.now

/-- C8 counterexample: two distinct concurrently in-flight requests that
observe the same `Date.now()` millisecond receive identical output
filenames — the filename generation is not injective per request. -/
theorem same_millisecond_output_names_collide :
    (⟨0, 7⟩ : InflightRequest) ≠ (⟨1, 7⟩ : InflightRequest) ∧
    requestOutputName ⟨0, 7⟩ = requestOutputName ⟨1, 7⟩ :=
  ⟨by decide, rfl⟩

/-- C8 amended: the output filename is derived from the wall-clock
millisecond value alone, not from a request identifier — any two requests
observing the same `Date.now()` value receive the same output path,
whatever their identities, so distinctness is only guaranteed between
requests whose timestamps differ. -/
theorem output_name_ignores_request_identity
    (r₁ r₂ : InflightRequest) (h : r₁.now = r₂.now) :
    requestOutputName r₁ = requestOutputName r₂ := by
  unfold requestOutputName
  rw [h]

/-- Witness for the amended C8 at concrete inputs: requests 3 and 4 share
the timestamp 99 and receive the same output name. -/
theorem output_name_ignores_request_identity_witness :
    (⟨3, 99⟩ : InflightRequest).now = (⟨4, 99⟩ : InflightRequest).now ∧
    requestOutputName ⟨3, 99⟩ = requestOutputName ⟨4, 99⟩ :=
  ⟨rfl, output_name_ignores_request_identity ⟨3, 99⟩ ⟨4, 99⟩ rfl⟩

namespace CopyVariant

/-- A single-quote character, used by the concat list file syntax. -/
def quoteChar : String := "\x27"

/-- Content of the concat demuxer list file written by `part_001`:
one `file` line per input, in upload order. -/
def fileListContent (introAbs mainAbs : String) : String :=
  "file " ++ quoteChar ++ introAbs ++ quoteChar ++ "\n"
    ++ "file " ++ quoteChar ++ mainAbs ++ quoteChar

/-- The list-file path `uploads/filelist_<Date.now()>.txt`. -/
def fileListPathOf (now : Nat) : String :=
  "uploads/filelist_" ++ Nat.repr now ++ ".txt"

/-- The output path `uploads/merged_<Date.now()>.mp4`. -/
def copyOutputPathOf (now : Nat) : String :=
  "uploads/merged_" ++ Nat.repr now ++ ".mp4"

/-- The single ffmpeg invocation built by the stream-copy revision: one
input (the list file) with the concat demuxer options, stream-copy output
options, and no `complexFilter` call at all. -/
structure Cmd where
  input : String
  inputOptions : List String
  outputOptions : List String
  complexFilterApplied : Bool
  output : String
deriving DecidableEq, Repr

/-- The command as assembled in `part_001`. -/
def cmd (now : Nat) : Cmd :=
  { input := fileListPathOf now,
    inputOptions := ["-f concat", "-safe 0"],
    outputOptions := ["-c copy"],
    complexFilterApplied := false,
    output := copyOutputPathOf now }

/-- The message of the TypeError thrown when `req.files.intro[0]` or
`req.files.main[0]` is read while the field is absent (there is no
missing-files check in this revision). -/
def typeErrorMsg : String :=
  "Cannot read properties of undefined (reading " ++ quoteChar ++ "0" ++ quoteChar ++ ")"

/-- Environment of one stream-copy request. -/
structure Env where
  hasIntro : Bool
  hasMain : Bool
  introPath : String
  mainPath : String
  now : Nat
  ffmpegResult : Except String Unit

/-- Observable outcome of one stream-copy request: response, executed
steps, the list-file content written (when reached), the ffmpeg command
run (when reached), and the files unlinked by the `sendFile` callback. -/
structure Trace where
  response : HttpResult
  steps : List Step
  fileListWritten : Option String
  command : Option Cmd
  unlinked : List String
deriving DecidableEq, Repr

/-- The `POST /api/merge-videos` handler of `part_001`: no probe and no
filter graph — it writes a concat list file, runs ffmpeg with
`-f concat -safe 0` input options and `-c copy` output options, and
answers failures with a plain-text 500 body; cleanup (intro, main, list
file, output) runs only in the `sendFile` callback. -/
def handle (env : Env) : Trace :=
  if !env.hasIntro || !env.hasMain then
    ⟨⟨500, Body.text ("Error: " ++ typeErrorMsg)⟩, [], none, none, []⟩
  else
    match env.ffmpegResult with
    | Except.error e =>
        ⟨⟨500, Body.text ("Error: " ++ e)⟩,
         [Step.writeFileList, Step.transcode],
         some (fileListContent env.introPath env.mainPath),
         some (cmd env.now), []⟩
    | Except.ok _ =>
        ⟨⟨200, Body.file (copyOutputPathOf env.now)⟩,
         [Step.writeFileList, Step.transcode, Step.deliver],
         some (fileListContent env.introPath env.mainPath),
         some (cmd env.now),
         [env.introPath, env.mainPath, fileListPathOf env.now,
          copyOutputPathOf env.now]⟩

end CopyVariant

/-- C9: the stream-copy revision never probes an input and never applies a
filter graph or evaluates the audio-presence decision table (no probe or
plan step ever executes); whenever it runs ffmpeg, the command joins the
two files through a concat list file with stream copy: the list file holds
the two upload paths, the input options are the concat demuxer options and
the output options are exactly `-c copy`, so the output carries whatever
codec parameters the inputs had. -/
theorem copy_variant_no_probe_no_filter_graph (env : CopyVariant.Env) :
    Step.probe ∉ (CopyVariant.handle env).steps ∧
    Step.planStep ∉ (CopyVariant.handle env).steps ∧
    (CopyVariant.handle env).command =
      (if env.hasIntro && env.hasMain
       then some (CopyVariant.cmd env.now) else none) ∧
    (CopyVariant.handle env).fileListWritten =
      (if env.hasIntro && env.hasMain
       then some (CopyVariant.fileListContent env.introPath env.mainPath)
       else none) ∧
    (CopyVariant.cmd env.now).complexFilterApplied = false ∧
    (CopyVariant.cmd env.now).inputOptions = ["-f concat", "-safe 0"] ∧
    (CopyVariant.cmd env.now).outputOptions = ["-c copy"] := by
  obtain ⟨hi, hm, ip, mp, n, fr⟩ := env
  cases hi <;> cases hm <;> cases fr <;>
    simp [CopyVariant.handle, CopyVariant.cmd]

namespace RejectAsym

/-- The 400 message of the intro-audio-without-main-audio guard. -/
def introNoMainMsg : String :=
  "Unsupported combination: intro has audio but main does not. Provide main clip with audio or remove intro audio."

/-- The 400 message of the neither-input-has-audio guard. -/
def neitherMsg : String :=
  "Unsupported combination: neither input has audio. Provide a main clip with audio."

/-- The two video normalization stages of the reject-asymmetric revision
(`part_000`, second revision). -/
def videoFilters : List FilterStage :=
  [⟨["0:v"], videoNormScaledOp, ["v0"]⟩,
   ⟨["1:v"], videoNormScaledOp, ["v1"]⟩]

/-- The unconditional video-only concat stage of this revision. -/
def videoConcat : FilterStage := ⟨["v0", "v1"], "concat=n=2:v=1:a=0", ["v"]⟩

/-- Intro audio normalization (`[0:a]aresample=...[a0]`). -/
def a0Stage : FilterStage := ⟨["0:a"], aresampleOp, ["a0"]⟩

/-- Main audio normalization in the both-audio branch
(`[1:a]aresample=...[a1]`). -/
def a1Stage : FilterStage := ⟨["1:a"], aresampleOp, ["a1"]⟩

/-- Audio-only concat of the both-audio branch
(`[a0][a1]concat=n=2:v=0:a=1[a]`). -/
def audioConcat : FilterStage := ⟨["a0", "a1"], "concat=n=2:v=0:a=1", ["a"]⟩

/-- Main audio normalization of the main-only branch
(`[1:a]aresample=...[a_main]`). -/
def aMainStage : FilterStage := ⟨["1:a"], aresampleOp, ["a_main"]⟩

/-- The planning step of the reject-asymmetric revision (`part_000`,
second revision): the intro-only-audio and neither-audio combinations are
rejected early with a 400 JSON error; the remaining two combinations build
`videoFilters ++ [videoConcat] ++ audioFilters` with the matching audio
output label. -/
def plan (introHasA mainHasA : Bool) : Except HttpResult FilterGraphPlan :=
  if introHasA && !mainHasA then
    Except.error ⟨400, Body.json introNoMainMsg⟩
  else if !introHasA && !mainHasA then
    Except.error ⟨400, Body.json neitherMsg⟩
  else if introHasA && mainHasA then
    Except.ok ⟨videoFilters ++ [videoConcat] ++ [a0Stage, a1Stage, audioConcat],
      "v", some "a"⟩
  else
    Except.ok ⟨videoFilters ++ [videoConcat] ++ [aMainStage], "v", some "a_main"⟩

/-- Whether the planning step of this revision produced a plan rather
than an early 400 rejection. -/
def succeeds (e : Except HttpResult FilterGraphPlan) : Bool :=
  match e with
  | Except.ok _ => true
  | Except.error _ => false

end RejectAsym

/-- C3 counterexample: in the joint-concat revision of `server.js` at
introHasAudio=true, mainHasAudio=false, the single normalized intro pad
`a0` is not the plan's sole audio output: the fused concat consumes `a0`
twice, once per segment (`[v0][a0][v1][a0]`), so the intro audio is
repeated to cover the main clip's portion, and the mapped audio output is
the concat pad `a`, not the normalized pad itself. -/
theorem intro_audio_repeated_in_joint_concat :
    (JointConcat.concatFilter true false).consumes = ["v0", "a0", "v1", "a0"] ∧
    consumedCount "a0" (JointConcat.plan true false).stages = 2 ∧
    (JointConcat.plan true false).finalAudioLabel = some "a" ∧
    ¬ (JointConcat.plan true false).finalAudioLabel = some "a0" := by
  decide

/-- C3 amended: in the intro-audio-only case both planner revisions
resample only the intro's audio track, still concatenate the two video
pads, and produce a plan with both a video and an audio output; but the
revisions differ on the audio output: the separate-concat revision
(`part_000`, first revision — the spec's decision table) uses the single
normalized pad `a_intro` as the sole audio output and feeds it to no
further stage (not extended), while the joint-concat revision of
`server.js` feeds its normalized pad `a0` into the fused concat for both
segments, extending the intro audio over the main clip's portion and
mapping the concat output `a` instead. -/
theorem intro_only_audio_by_revision :
    SepConcat.audioFilters true false = [SepConcat.aIntroStage] ∧
    SepConcat.aIntroStage.consumes = ["0:a"] ∧
    (SepConcat.plan true false).finalAudioLabel = some "a_intro" ∧
    consumedCount "a_intro" (SepConcat.plan true false).stages = 0 ∧
    SepConcat.videoConcat ∈ (SepConcat.plan true false).stages ∧
    (SepConcat.plan true false).finalVideoLabel = "v" ∧
    JointConcat.audioFilters true false = [⟨["0:a"], aresampleOp, ["a0"]⟩] ∧
    JointConcat.concatFilter true false ∈ (JointConcat.plan true false).stages ∧
    consumedCount "a0" (JointConcat.plan true false).stages = 2 ∧
    (JointConcat.plan true false).finalAudioLabel = some "a" ∧
    (JointConcat.plan true false).finalVideoLabel = "v" := by
  decide

/-- C4 counterexample: the silence-synthesis variant's `audioFilters`
emits two audio stages even when neither input has audio — the trimmed
generated-silence stages — so the claimed count of zero audio stages when
neither input has audio is false of that cited code. -/
theorem silence_variant_audio_stages_nonzero :
    (Silence.audioFilters false false).length = 2 ∧
    Silence.audioFilters false false = [Silence.silenceA0, Silence.silenceA1] ∧
    ¬ (Silence.audioFilters false false).length = 0 := by
  decide

/-- C4 amended: audio stage counts are per revision.  The separate-concat
planner (`part_000`, first revision — the spec's decision table) produces
exactly two audio-normalize stages plus one audio concat when both inputs
have audio, exactly the single matching normalize stage when exactly one
input has audio, and zero audio stages when neither has audio; the
silence-synthesis variant instead always produces exactly two audio
stages, one per input — a resample of the real track when present,
trimmed generated silence otherwise — in all four combinations. -/
theorem audio_stage_counts_by_revision :
    SepConcat.audioFilters true true
      = [SepConcat.aIntroStage, SepConcat.aMainStage, SepConcat.audioConcat] ∧
    (SepConcat.audioFilters true true).length = 3 ∧
    SepConcat.audioFilters true false = [SepConcat.aIntroStage] ∧
    (SepConcat.audioFilters true false).length = 1 ∧
    SepConcat.audioFilters false true = [SepConcat.aMainStage] ∧
    (SepConcat.audioFilters false true).length = 1 ∧
    SepConcat.audioFilters false false = [] ∧
    (SepConcat.audioFilters false false).length = 0 ∧
    (∀ introHasA mainHasA : Bool,
      (Silence.audioFilters introHasA mainHasA).length = 2) ∧
    Silence.audioFilters true true = [Silence.resampleA0, Silence.resampleA1] ∧
    Silence.audioFilters false false = [Silence.silenceA0, Silence.silenceA1] := by
  decide

/-- C5 counterexample: the reject-asymmetric revision of `part_000` takes
an explicit failure path for two of the four audio-presence combinations,
answering 400 with its unsupported-combination messages — so the planning
step of that cited code is not a total, never-failing function. -/
theorem reject_variant_rejects_asymmetric :
    RejectAsym.plan true false
      = Except.error ⟨400, Body.json RejectAsym.introNoMainMsg⟩ ∧
    RejectAsym.plan false false
      = Except.error ⟨400, Body.json RejectAsym.neitherMsg⟩ :=
  ⟨rfl, rfl⟩

/-- C5 amended: totality of planning holds only for the separate-concat
revision (`part_000`, first revision), whose planner yields a well-formed
plan on all four combinations.  The cited revisions diverge: the
reject-asymmetric revision succeeds only on the both-audio and main-only
combinations and rejects the other two with a 400 error (every combination
either yields a well-formed plan or that 400 rejection), and the
joint-concat planner of `server.js`, though total, yields a plan that is
not well formed in the main-audio-only combination. -/
theorem plan_partiality_by_revision :
    RejectAsym.succeeds (RejectAsym.plan true true) = true ∧
    RejectAsym.succeeds (RejectAsym.plan false true) = true ∧
    RejectAsym.succeeds (RejectAsym.plan true false) = false ∧
    RejectAsym.succeeds (RejectAsym.plan false false) = false ∧
    (∀ introHasA mainHasA : Bool,
      (match RejectAsym.plan introHasA mainHasA with
       | Except.ok p => planWellFormed p
       | Except.error r => r.status == 400) = true) ∧
    planWellFormed (JointConcat.plan false true) = false ∧
    (∀ introHasA mainHasA : Bool,
      planWellFormed (SepConcat.plan introHasA mainHasA) = true) := by
  decide
